import Mathlib

/-!
Verification of `miners_keeper.py` (pyminekeeper), a supervisor that starts
a worker process, polls a JSON health endpoint for its hashrate, and
restarts the worker on time expiry or on a health failure.

The Python source is shallowly embedded: JSON documents become the `Json`
inductive, Python exceptions become `Except Unit`, dictionaries become
association lists, and `datetime` instants become natural-number second
counts.  Each definition mirrors one function (or a delimited block) of the
source, with the source line range noted in its doc comment.
-/

/-- A JSON value, as produced by `json.loads` in `get_json_data`
(`miners_keeper.py:117-130`).  Numbers are modelled by `ℚ`. -/
inductive Json where
  | null : Json
  | bool : Bool → Json
  | num : ℚ → Json
  | str : String → Json
  | arr : List Json → Json
  | obj : List (String × Json) → Json

/-- Python truthiness (`if not x`) for the JSON values above:
`None`, `False`, `0`, `""`, `[]` and `{}` are falsy. -/
def pyTruthy : Json → Bool
  | Json.null => false
  | Json.bool b => b
  | Json.num q => q != 0
  | Json.str s => !s.isEmpty
  | Json.arr l => !l.isEmpty
  | Json.obj l => !l.isEmpty

/-- Key lookup in a JSON object, as a Python `dict` lookup
(keys of a decoded document are distinct, so first match suffices). -/
def jlookup : List (String × Json) → String → Option Json
  | [], _ => none
  | (k, v) :: rest, key => if k = key then some v else jlookup rest key

/-- Python `dict.get(key, default)`. -/
def pyGet (fields : List (String × Json)) (key : String) (default : Json) : Json :=
  (jlookup fields key).getD default

/-- Python subscripting `x[0]` on a JSON value: succeeds on a nonempty list
(first element) and on a nonempty string (first character); raises
(`Except.error`) on `None`, numbers, booleans, objects (integer key is
absent), the empty list and the empty string. -/
def pyIndexZero : Json → Except Unit Json
  | Json.arr (x :: _) => Except.ok x
  | Json.arr [] => Except.error ()
  | Json.str s => if s.isEmpty then Except.error () else Except.ok (Json.str (String.singleton s.front))
  | _ => Except.error ()

/-- `parse_castxmr_hashrate` (`miners_keeper.py:159-218`):
`hashrate = status_data.get('total_hash_rate', -1)`; if `hashrate > 0` it is
divided by 1000; the (possibly scaled) value is returned.  A non-`dict`
document makes `.get` raise `AttributeError`, and a non-numeric field makes
the comparison with `0` raise `TypeError`; both propagate (`Except.error`) —
there is no `try` in this function.  Python treats `bool` as an integer, so a
boolean field compares with 0 instead of raising. -/
def parse_castxmr_hashrate (status_data : Json) : Except Unit Json :=
  match status_data with
  | Json.obj fields =>
    match pyGet fields "total_hash_rate" (Json.num (-1)) with
    | Json.num q => Except.ok (Json.num (if q > 0 then q / 1000 else q))
    | Json.bool b => Except.ok (if b then Json.num (1 / 1000) else Json.bool false)
    | _ => Except.error ()
  | _ => Except.error ()

/-- `parse_xmrstak_hashrate` (`miners_keeper.py:221-285`): inside its own
`try`, read `status_data.get('hashrate', None)`; a falsy value returns `-1`;
then `hashrate_info.get('total', None)[0]`; a falsy first element returns
`-1`, a truthy one is returned.  Every exception (non-`dict` document, truthy
non-`dict` `hashrate`, missing `total` making `None[0]` raise, empty list) is
caught by the bare `except` and yields `-1`, so this function never raises:
it always returns `Except.ok`. -/
def parse_xmrstak_hashrate (status_data : Json) : Except Unit Json :=
  Except.ok <|
    match status_data with
    | Json.obj fields =>
      let hashrate_info := pyGet fields "hashrate" Json.null
      if pyTruthy hashrate_info then
        match hashrate_info with
        | Json.obj hfields =>
          match pyIndexZero (pyGet hfields "total" Json.null) with
          | Except.ok hashrate => if pyTruthy hashrate then hashrate else Json.num (-1)
          | Except.error _ => Json.num (-1)
        | _ => Json.num (-1)
      else Json.num (-1)
    | _ => Json.num (-1)

/-- `get_hashrate` (`miners_keeper.py:133-156`).  The HTTP fetch
`get_json_data` is modelled by an oracle `fetch`: `Except.error ()` is a
raised exception (network error, timeout, non-JSON body), `Except.ok none`
is the `None` returned on a non-200 status, and `Except.ok (some j)` is a
decoded document `j`.  The configured `parse_function` is a parameter.
The fetch is consulted only when the api `type` tag equals `"JSON"`;
a raised fetch returns `-1`; a falsy `miner_status_data` returns `-1`
before the parse function is consulted; a raising parse returns `-1`. -/
def get_hashrate (tp : String) (fetch : Except Unit (Option Json))
    (parse_function : Json → Except Unit Json) : Json :=
  if tp = "JSON" then
    match fetch with
    | Except.error _ => Json.num (-1)
    | Except.ok none => Json.num (-1)
    | Except.ok (some j) =>
      if pyTruthy j then
        match parse_function j with
        | Except.error _ => Json.num (-1)
        | Except.ok hashrate => hashrate
      else Json.num (-1)
  else Json.num (-1)

/-- `run_time_ended` (`miners_keeper.py:288-298`).  Instants are second
counts; `datetime.datetime.now()` becomes the explicit argument `now`.
Python's `timedelta.seconds` attribute is the sub-day component of the
delta, i.e. the whole-second difference modulo 86400.  The source computes
`current_run_time_minutes = (now - last_start_time).seconds * 60` and
returns whether it exceeds `max_run_time_minutes`. -/
def run_time_ended (last_start_time now max_run_time_minutes : ℕ) : Bool :=
  let current_run_time_minutes := ((now - last_start_time) % 86400) * 60
  current_run_time_minutes > max_run_time_minutes

/-- Configuration constants of `miner_keeper` (`miners_keeper.py:316-324`). -/
def colds_start_sleep_interval : ℕ := 16

def target_hashrate : ℚ := 11500

def hot_restart_interval_minutes : ℕ := 5

def max_run_time_minutes : ℕ := 40

def initial_sleep_time_minutes : ℕ := 2

def process_exit_time_seconds : ℕ := 5

/-- The cold-start decision of `miner_keeper` (`miners_keeper.py:356-364`):
`True` when `last_start_time` is `None`; otherwise the test
`(datetime.datetime.now() - last_start_time).seconds <
hot_restart_interval_minutes * 60`, with `.seconds` again the sub-day
component of the delta. -/
def needs_cold_start (last_start_time : Option ℕ) (now : ℕ) : Bool :=
  match last_start_time with
  | none => true
  | some t => ((now - t) % 86400) < hot_restart_interval_minutes * 60

/-- Health classification of a polled hashrate value in the MONITORING
loop body (`miners_keeper.py:388-400`): `current_hashrate <= 0` and
`current_hashrate < target_hashrate` clear `hashrate_ok` (restart);
otherwise the value is logged as OK and monitoring continues. -/
inductive HealthStatus where
  | ok : HealthStatus
  | fail : HealthStatus
  deriving DecidableEq

def classify_hashrate (current_hashrate : ℚ) : HealthStatus :=
  if current_hashrate ≤ 0 then HealthStatus.fail
  else if current_hashrate < target_hashrate then HealthStatus.fail
  else HealthStatus.ok

/-- The MONITORING loop guard (`miners_keeper.py:381`):
`while run_time_ended(last_start_time, max_run_time_minutes) and hashrate_ok`.
Note the guard is `run_time_ended`, not its negation. -/
def monitoring_continues (last_start_time now : ℕ) (hashrate_ok : Bool) : Bool :=
  run_time_ended last_start_time now max_run_time_minutes && hashrate_ok

/-- Observable actions of one pass of the `while True` body of
`miner_keeper`, in program order. -/
inductive Event where
  | runScript : String → Event
  | sleep : ℕ → Event
  | startMiner : String → Event
  | killProc : ℕ → Event

/-- The cold-start block (`miners_keeper.py:367-371`): for each script in
order, `subprocess.Popen(script)` then
`time.sleep(colds_start_sleep_interval)`. -/
def cold_start_trace : List String → ℕ → List Event
  | [], _ => []
  | s :: rest, interval =>
    Event.runScript s :: Event.sleep interval :: cold_start_trace rest interval

/-- The STARTING phase of one pass (`miners_keeper.py:367-378`): the
cold-start block when `cold_start_needed`, then `start_miner`, then the
initial stabilisation sleep. -/
def starting_trace (cold_start_needed : Bool) (scripts : List String)
    (interval : ℕ) (miner_exe_path : String) (initial_sleep_min : ℕ) : List Event :=
  (if cold_start_needed then cold_start_trace scripts interval else []) ++
    [Event.startMiner miner_exe_path, Event.sleep (initial_sleep_min * 60)]

/-- The STOPPING phase of one pass (`miners_keeper.py:402-406`): when the
miner process is still alive, `kill(miner_process.pid)` then
`time.sleep(process_exit_time_seconds)`; otherwise nothing. -/
def stopping_trace (alive : Bool) (pid : ℕ) : List Event :=
  if alive then [Event.killProc pid, Event.sleep process_exit_time_seconds] else []

/-- One full pass of the `while True` body: STARTING, then the events of
the MONITORING loop (abstracted, they issue no script/kill/start events),
then STOPPING.  The next pass begins right after. -/
def keeper_iteration_trace (cold_start_needed : Bool) (scripts : List String)
    (miner_exe_path : String) (monitor_events : List Event)
    (alive : Bool) (pid : ℕ) : List Event :=
  starting_trace cold_start_needed scripts colds_start_sleep_interval
      miner_exe_path initial_sleep_time_minutes ++
    monitor_events ++ stopping_trace alive pid

/-- Claim C1: the MONITORING loop is claimed to continue iff the max run
time has not yet elapsed and health has not failed, exiting exactly on time
expiry.  The code evaluates otherwise: with the worker healthy
(`hashrate_ok = true`), at 3600 s after start — well past the 40-minute
limit — the loop guard `run_time_ended(...) and hashrate_ok` is still
`true`, so MONITORING continues; the guard only becomes `false` when the
sub-day component of the delta wraps (e.g. at 86400 s). -/
theorem C1_monitoring_guard_eval :
    monitoring_continues 0 3600 true = true ∧
    3600 > max_run_time_minutes * 60 ∧
    monitoring_continues 0 86400 true = false := by
  decide

/-- Claim C2: a polled hashrate `v` is classified OK iff `v ≥ target_hashrate`,
and as a health failure iff `v ≤ 0` or `0 < v < target_hashrate`. -/
theorem C2_health_classification (v : ℚ) :
    (classify_hashrate v = HealthStatus.ok ↔ target_hashrate ≤ v) ∧
    (classify_hashrate v = HealthStatus.fail ↔ v ≤ 0 ∨ (0 < v ∧ v < target_hashrate)) := by
  have htarget : (0 : ℚ) < target_hashrate := by norm_num [target_hashrate]
  unfold classify_hashrate
  split_ifs with h1 h2
  · constructor
    · exact ⟨fun h => (nomatch h), fun h => absurd (htarget.trans_le h) (by linarith)⟩
    · exact Iff.intro (fun _ => Or.inl h1) (fun _ => rfl)
  · push_neg at h1
    constructor
    · exact ⟨fun h => (nomatch h), fun h => absurd (h.trans_lt h2) (lt_irrefl _)⟩
    · exact Iff.intro (fun _ => Or.inr ⟨h1, h2⟩) (fun _ => rfl)
  · push_neg at h1 h2
    constructor
    · exact ⟨fun _ => h2, fun _ => rfl⟩
    · constructor
      · exact fun h => nomatch h
      · rintro (h | ⟨_, h4⟩)
        · exact absurd h (not_le.mpr h1)
        · exact absurd h4 (not_lt.mpr h2)

/-- Claim C3, counterexample: with a last start exactly one whole day before
now, the true elapsed time (86400 s) is at or above the threshold
(300 s), so the claim says hot (false); the code takes the sub-day
component `.seconds = 0` and decides cold (true). -/
theorem C3_counterexample_whole_day :
    needs_cold_start (some 0) 86400 = true ∧
    86400 - 0 ≥ hot_restart_interval_minutes * 60 := by
  decide

/-- Claim C3, amended: the decision is cold when there is no previous start;
otherwise it is cold iff the sub-day component of the elapsed time,
`(now - t) % 86400`, is strictly below the threshold, and hot iff that
component is at or above it — so the exact-threshold boundary is hot. -/
theorem C3_cold_start_decision (now t : ℕ) (h : t ≤ now) :
    needs_cold_start none now = true ∧
    (needs_cold_start (some t) now = true ↔
      (now - t) % 86400 < hot_restart_interval_minutes * 60) ∧
    (needs_cold_start (some t) now = false ↔
      hot_restart_interval_minutes * 60 ≤ (now - t) % 86400) := by
  refine ⟨rfl, ?_, ?_⟩
  · simp [needs_cold_start]
  · simp [needs_cold_start, Nat.not_lt]

/-- Witness for C3: at exactly the threshold (elapsed 300 s) the decision is
hot, one second earlier it is cold. -/
theorem C3_cold_start_decision_witness :
    needs_cold_start (some 0) 300 = false ∧ needs_cold_start (some 0) 299 = true := by
  constructor
  · exact ((C3_cold_start_decision 300 0 (by decide)).2.2).mpr (by decide)
  · exact ((C3_cold_start_decision 299 0 (by decide)).2.1).mpr (by decide)

/-- Claim C9: both elapsed-time computations use only the sub-day component
of the time delta: for a start at `t` and a current time `t + e + 86400 * d`
(any number `d` of extra whole days), both the run-time check and the
cold/hot decision coincide with their value at elapsed time `e % 86400`. -/
theorem C9_sub_day_component (t e d maxm : ℕ) :
    run_time_ended t (t + e + 86400 * d) maxm = run_time_ended 0 (e % 86400) maxm ∧
    needs_cold_start (some t) (t + e + 86400 * d) = needs_cold_start (some 0) (e % 86400) := by
  have key : (t + e + 86400 * d - t) % 86400 = (e % 86400 - 0) % 86400 := by omega
  constructor
  · unfold run_time_ended
    rw [key]
  · show decide ((t + e + 86400 * d - t) % 86400 < hot_restart_interval_minutes * 60) =
        decide ((e % 86400 - 0) % 86400 < hot_restart_interval_minutes * 60)
    rw [key]

/-- Claim C4: `get_hashrate` never raises and maps every failing input to
the sentinel `-1`: a raising fetch (network error, timeout, undecodable
body) yields `-1`; a decoded document on which the parse function raises
yields `-1`; and in every case the result is either `-1` or a value the
parse function returned on the fetched document. -/
theorem C4_get_hashrate_never_raises (tp : String) (fetch : Except Unit (Option Json))
    (parse_function : Json → Except Unit Json) :
    (get_hashrate tp (Except.error ()) parse_function = Json.num (-1)) ∧
    (∀ j : Json, fetch = Except.ok (some j) → parse_function j = Except.error () →
      get_hashrate tp fetch parse_function = Json.num (-1)) ∧
    (get_hashrate tp fetch parse_function = Json.num (-1) ∨
      ∃ j : Json, fetch = Except.ok (some j) ∧ pyTruthy j = true ∧
        parse_function j = Except.ok (get_hashrate tp fetch parse_function)) := by
  by_cases htp : tp = "JSON"
  · subst htp
    refine ⟨rfl, ?_, ?_⟩
    · rintro j rfl hparse
      simp [get_hashrate, hparse]
    · rcases fetch with e | md
      · exact Or.inl rfl
      · rcases md with _ | j
        · exact Or.inl rfl
        · by_cases hj : pyTruthy j
          · rcases hparse : parse_function j with e | h
            · exact Or.inl (by simp [get_hashrate, hj, hparse])
            · exact Or.inr ⟨j, rfl, hj, by simp [get_hashrate, hj, hparse]⟩
          · exact Or.inl (by simp [get_hashrate, hj])
  · exact ⟨by simp [get_hashrate, htp], fun j _ _ => by simp [get_hashrate, htp],
      Or.inl (by simp [get_hashrate, htp])⟩

/-- Witness for C4: a body that decodes to a JSON string (not an object)
makes the Cast XMR parser raise `AttributeError`; `get_hashrate` returns
`-1`. -/
theorem C4_get_hashrate_never_raises_witness :
    get_hashrate "JSON" (Except.ok (some (Json.str "nonsense"))) parse_castxmr_hashrate
      = Json.num (-1) :=
  (C4_get_hashrate_never_raises "JSON" (Except.ok (some (Json.str "nonsense")))
    parse_castxmr_hashrate).2.1 (Json.str "nonsense") rfl rfl

/-- Claim C5: `parse_castxmr_hashrate` returns the `total_hash_rate` field
divided by 1000 when it is strictly positive, the field unscaled when it is
non-positive, and `-1` when the field is missing. -/
theorem C5_parse_castxmr (fields : List (String × Json)) (q : ℚ) :
    (jlookup fields "total_hash_rate" = some (Json.num q) → 0 < q →
      parse_castxmr_hashrate (Json.obj fields) = Except.ok (Json.num (q / 1000))) ∧
    (jlookup fields "total_hash_rate" = some (Json.num q) → q ≤ 0 →
      parse_castxmr_hashrate (Json.obj fields) = Except.ok (Json.num q)) ∧
    (jlookup fields "total_hash_rate" = none →
      parse_castxmr_hashrate (Json.obj fields) = Except.ok (Json.num (-1))) := by
  refine ⟨?_, ?_, ?_⟩
  · intro hl hq
    simp [parse_castxmr_hashrate, pyGet, hl, hq]
  · intro hl hq
    simp [parse_castxmr_hashrate, pyGet, hl, not_lt.mpr hq]
  · intro hl
    simp [parse_castxmr_hashrate, pyGet, hl]

/-- Witness for C5: `{"total_hash_rate": 2000000}` parses to `2000`;
`{"total_hash_rate": -5}` parses to `-5` unscaled; a document without the
field parses to `-1`. -/
theorem C5_parse_castxmr_witness :
    parse_castxmr_hashrate (Json.obj [("total_hash_rate", Json.num 2000000)])
        = Except.ok (Json.num 2000) ∧
    parse_castxmr_hashrate (Json.obj [("total_hash_rate", Json.num (-5))])
        = Except.ok (Json.num (-5)) ∧
    parse_castxmr_hashrate (Json.obj [("pool", Json.null)])
        = Except.ok (Json.num (-1)) := by
  refine ⟨?_, ?_, ?_⟩
  · have h := (C5_parse_castxmr [("total_hash_rate", Json.num 2000000)] 2000000).1
      rfl (by norm_num)
    rw [show (2000000 : ℚ) / 1000 = 2000 by norm_num] at h
    exact h
  · exact (C5_parse_castxmr [("total_hash_rate", Json.num (-5))] (-5)).2.1 rfl (by norm_num)
  · exact (C5_parse_castxmr [("pool", Json.null)] 0).2.2 rfl

/-- Claim C6, counterexample: in
`{"hashrate": {"total": [0, null]}}` the first element of `hashrate.total`
exists and is non-null, so the claim says it is returned; the code's
truthiness test (`if not hashrate`) sends the falsy `0` to `-1` instead. -/
theorem C6_counterexample_zero_first_element :
    parse_xmrstak_hashrate
        (Json.obj [("hashrate", Json.obj [("total", Json.arr [Json.num 0, Json.null])])])
      = Except.ok (Json.num (-1)) ∧ Json.num (-1) ≠ Json.num 0 := by
  constructor
  · rfl
  · intro h
    exact absurd (Json.num.inj h) (by norm_num)

/-- Claim C6, amended: `parse_xmrstak_hashrate` never raises, and returns
the first element of the `hashrate.total` sequence only when that element
is truthy (non-null and non-zero); a falsy first element, a missing or null
`hashrate` object, a missing `total`, and an empty `total` sequence all
yield the sentinel `-1`. -/
theorem C6_parse_xmrstak (fields hfields : List (String × Json)) (x : Json)
    (rest : List Json) :
    (∀ s : Json, ∃ v : Json, parse_xmrstak_hashrate s = Except.ok v) ∧
    (jlookup fields "hashrate" = some (Json.obj hfields) →
      jlookup hfields "total" = some (Json.arr (x :: rest)) →
      parse_xmrstak_hashrate (Json.obj fields)
        = Except.ok (if pyTruthy x then x else Json.num (-1))) ∧
    (jlookup fields "hashrate" = none ∨ jlookup fields "hashrate" = some Json.null →
      parse_xmrstak_hashrate (Json.obj fields) = Except.ok (Json.num (-1))) ∧
    (jlookup fields "hashrate" = some (Json.obj hfields) →
      (jlookup hfields "total" = none ∨ jlookup hfields "total" = some (Json.arr []) →
        parse_xmrstak_hashrate (Json.obj fields) = Except.ok (Json.num (-1)))) := by
  refine ⟨?_, ?_, ?_, ?_⟩
  · intro s
    exact ⟨_, rfl⟩
  · intro hh htotal
    have hne : hfields ≠ [] := by
      rintro rfl
      simp [jlookup] at htotal
    obtain ⟨a, as, rfl⟩ := List.exists_cons_of_ne_nil hne
    simp [parse_xmrstak_hashrate, pyGet, hh, htotal, pyTruthy, pyIndexZero]
  · rintro (h | h) <;> simp [parse_xmrstak_hashrate, pyGet, h, pyTruthy]
  · intro hh
    rcases hfields with _ | ⟨a, as⟩
    · intro _
      simp [parse_xmrstak_hashrate, pyGet, hh, pyTruthy]
    · rintro (h | h) <;>
        simp [parse_xmrstak_hashrate, pyGet, hh, h, pyTruthy, pyIndexZero]

/-- Witness for C6: the spec's example document
`{"hashrate": {"total": [1222.3, null, null]}}` parses to `1222.3`, and
`{"hashrate": null}` parses to `-1`. -/
theorem C6_parse_xmrstak_witness :
    parse_xmrstak_hashrate
        (Json.obj [("hashrate",
          Json.obj [("total", Json.arr [Json.num (12223 / 10), Json.null, Json.null])])])
      = Except.ok (Json.num (12223 / 10)) ∧
    parse_xmrstak_hashrate (Json.obj [("hashrate", Json.null)])
      = Except.ok (Json.num (-1)) := by
  constructor
  · have h := (C6_parse_xmrstak
      [("hashrate", Json.obj [("total", Json.arr [Json.num (12223 / 10), Json.null, Json.null])])]
      [("total", Json.arr [Json.num (12223 / 10), Json.null, Json.null])]
      (Json.num (12223 / 10)) [Json.null, Json.null]).2.1 rfl rfl
    rw [h]
    norm_num [pyTruthy]
  · exact (C6_parse_xmrstak [("hashrate", Json.null)] [] Json.null []).2.2.1 (Or.inr rfl)

/-- Projection of the command dispatched by an event, used to read the
dispatched command sequence off a trace. -/
def scriptOf : Event → Option String
  | Event.runScript s => some s
  | _ => none

/-- Claim C7: with a cold start selected, the STARTING phase runs every
configured script in order, each dispatch immediately followed by a sleep
of the fixed inter-command interval, and the worker launch comes after all
of them; consequently the dispatched commands read off the trace are
exactly the configured sequence. -/
theorem C7_cold_start_sequence (scripts : List String) (miner_exe_path : String) :
    starting_trace true scripts colds_start_sleep_interval miner_exe_path
        initial_sleep_time_minutes
      = scripts.flatMap (fun s => [Event.runScript s, Event.sleep colds_start_sleep_interval]) ++
          [Event.startMiner miner_exe_path, Event.sleep (initial_sleep_time_minutes * 60)] ∧
    (starting_trace true scripts colds_start_sleep_interval miner_exe_path
        initial_sleep_time_minutes).filterMap scriptOf = scripts := by
  have htrace : ∀ l : List String,
      cold_start_trace l colds_start_sleep_interval
        = l.flatMap (fun s => [Event.runScript s, Event.sleep colds_start_sleep_interval]) := by
    intro l
    induction l with
    | nil => rfl
    | cons s rest ih => simp [cold_start_trace, ih]
  constructor
  · unfold starting_trace
    rw [if_pos rfl, htrace]
  · unfold starting_trace
    rw [if_pos rfl, htrace]
    simp [List.filterMap_append, List.filterMap_flatMap, scriptOf]

/-- Claim C8: in the STOPPING phase, a still-alive worker is tree-killed and
a fixed grace period elapses before the next pass begins; a worker that
already died triggers neither, and the pass ends immediately. -/
theorem C8_stopping_phase (cold_start_needed : Bool) (scripts : List String)
    (miner_exe_path : String) (monitor_events : List Event) (pid : ℕ) :
    keeper_iteration_trace cold_start_needed scripts miner_exe_path monitor_events true pid
      = starting_trace cold_start_needed scripts colds_start_sleep_interval miner_exe_path
            initial_sleep_time_minutes ++ monitor_events ++
          [Event.killProc pid, Event.sleep process_exit_time_seconds] ∧
    keeper_iteration_trace cold_start_needed scripts miner_exe_path monitor_events false pid
      = starting_trace cold_start_needed scripts colds_start_sleep_interval miner_exe_path
            initial_sleep_time_minutes ++ monitor_events := by
  constructor
  · rfl
  · simp [keeper_iteration_trace, stopping_trace]

/-- Claim C10: a successful fetch whose decoded document is falsy (empty
object, empty array, 0, false or null) makes `get_hashrate` return `-1`
for every parse function (so the configured parser is never consulted);
and with a format tag other than `"JSON"` the result is `-1` for every
fetch outcome (so no fetch is attempted at all). -/
theorem C10_falsy_document_and_format_tag (parse_function : Json → Except Unit Json) :
    (∀ j : Json, pyTruthy j = false →
      get_hashrate "JSON" (Except.ok (some j)) parse_function = Json.num (-1)) ∧
    (∀ (tp : String) (fetch : Except Unit (Option Json)), tp ≠ "JSON" →
      get_hashrate tp fetch parse_function = Json.num (-1)) := by
  constructor
  · intro j hj
    simp [get_hashrate, hj]
  · intro tp fetch htp
    simp [get_hashrate, htp]

/-- Witness for C10: the falsy document `{}` yields `-1` under the xmr-stak
parser, and a non-JSON format tag yields `-1` whatever the fetch returns. -/
theorem C10_falsy_document_and_format_tag_witness :
    get_hashrate "JSON" (Except.ok (some (Json.obj []))) parse_xmrstak_hashrate
      = Json.num (-1) ∧
    get_hashrate "HTML" (Except.ok (some (Json.num 5))) parse_xmrstak_hashrate
      = Json.num (-1) :=
  ⟨(C10_falsy_document_and_format_tag parse_xmrstak_hashrate).1 (Json.obj []) rfl,
   (C10_falsy_document_and_format_tag parse_xmrstak_hashrate).2 "HTML"
     (Except.ok (some (Json.num 5))) (by decide)⟩
